import Mathlib

/-!
Verification development for the `unified_creek_awos` weather-station
repository.  The definitions below are shallow embeddings of the Python
functions in `src/awos_refined.py` (and, where cited, `src/awos.py`):
numeric values are rationals, machine registers are naturals, fallible
reads are `Option`, and mutable attribute state is passed explicitly.
-/

/-- Python's built-in `round`: round half to even, on rationals. -/
def pyRound (q : ℚ) : ℤ :=
  let f := ⌊q⌋
  let r := q - (f : ℚ)
  if r < 1/2 then f
  else if r = 1/2 then (if f % 2 = 0 then f else f + 1)
  else f + 1

/-- The 16-point compass rose from `_degrees_to_cardinal`. -/
def directions : List String :=
  ["N", "NNE", "NE", "ENE", "E", "ESE", "SE", "SSE",
   "S", "SSW", "SW", "WSW", "W", "WNW", "NW", "NNW"]

/-- `_degrees_to_cardinal` (awos_refined.py:739, awos.py:490): degrees to a
16-point cardinal label, `"Unknown"` for `None` or out-of-range input. -/
def degreesToCardinal (degrees : Option ℚ) : String :=
  match degrees with
  | none => "Unknown"
  | some d =>
    if 0 ≤ d ∧ d ≤ 360 then
      let index := pyRound (d / ((360 : ℚ) / (directions.length : ℚ))) % (directions.length : ℤ)
      directions.getD index.toNat "Unknown"
    else "Unknown"

/-- `calculate_aqi` (awos_refined.py:514): AQI from PM2.5 by EPA breakpoint
bands; `None` propagates. -/
def calculate_aqi (pm2_5 : Option ℚ) : Option ℚ :=
  match pm2_5 with
  | none => none
  | some v =>
    if v ≤ 12 then some ((v / 12) * 50)
    else if v ≤ 35.4 then some (((v - 12.1) / (35.4 - 12.1)) * (100 - 51) + 51)
    else if v ≤ 55.4 then some (((v - 35.5) / (55.4 - 35.5)) * (150 - 101) + 101)
    else if v ≤ 150.4 then some (((v - 55.5) / (150.4 - 55.5)) * (200 - 151) + 151)
    else if v ≤ 250.4 then some (((v - 150.5) / (250.4 - 150.5)) * (300 - 201) + 201)
    else some (((v - 250.5) / (500.4 - 250.5)) * (500 - 301) + 301)

/-- `get_aqi_state` (awos_refined.py:830): AQI classification band. -/
def get_aqi_state (aqi : Option ℚ) : String × String :=
  match aqi with
  | none => ("N/A", "#FFFFFF")
  | some a =>
    if 0 ≤ a ∧ a ≤ 50 then ("GOOD", "#39FF14")
    else if 50 ≤ a ∧ a ≤ 100 then ("MODERATE", "#FFFF00")
    else if 100 ≤ a ∧ a ≤ 150 then ("UNHEALTHY", "#FF7E00")
    else if 150 ≤ a ∧ a ≤ 200 then ("UNHEALTHY", "#FF0000")
    else if 200 ≤ a ∧ a ≤ 300 then ("VERY UNHEALTHY", "#8F3F97")
    else ("HAZARDOUS", "#7E0023")

/-- `get_uv_state` (awos_refined.py:848): UV classification band. -/
def get_uv_state (uv : Option ℚ) : String × String :=
  match uv with
  | none => ("N/A", "#FFFFFF")
  | some u =>
    if 0 ≤ u ∧ u ≤ 2 then ("LOW", "#39FF14")
    else if 2 ≤ u ∧ u ≤ 5 then ("MODERATE", "#FFFF00")
    else if 5 ≤ u ∧ u ≤ 7 then ("HIGH", "#FF7E00")
    else if 7 ≤ u ∧ u ≤ 10 then ("VERY HIGH", "#FF0000")
    else ("EXTREME", "#8F3F97")

/-- `get_humidity_state` (awos_refined.py:864): humidity classification band. -/
def get_humidity_state (humidity : Option ℚ) : String × String :=
  match humidity with
  | none => ("N/A", "#FFFFFF")
  | some h =>
    if 0 ≤ h ∧ h ≤ 30 then ("LOW", "#3EC1EC")
    else if 30 ≤ h ∧ h ≤ 50 then ("NORMAL", "#39FF14")
    else if 50 ≤ h ∧ h ≤ 60 then ("SLIGHTLY HIGH", "#FFFF00")
    else if 60 ≤ h ∧ h ≤ 70 then ("HIGH", "#FF7E00")
    else ("VERY HIGH", "#FF0000")

/-- A calendar date as produced by `datetime.now()`: only the fields the
rainfall accumulator consults (`.day` for the reset check, the full date for
the stored row). -/
structure PyDate where
  year : ℕ
  month : ℕ
  day : ℕ
deriving DecidableEq

/-- The rainfall accumulator's attribute state.  Before the first
`process_rainfall` call neither `last_rain_reset_day` nor `daily_rain_total`
exists as an attribute (`fresh`); after any call both do (`active`). -/
inductive RainState where
  | fresh (lastRainValue : ℚ)
  | active (resetDay : ℕ) (dailyTotal : ℚ) (lastRainValue : ℚ)
deriving DecidableEq

/-- `process_rainfall` (awos_refined.py:475): returns the displayed value, the
updated state, and the list of `(date, total)` rows appended to the daily
rainfall totals file by `store_daily_rainfall` (awos_refined.py:460), which
stamps each row with `datetime.now()` — the date of the call. -/
def process_rainfall : RainState → PyDate → Option ℚ → Option ℚ × RainState × List (PyDate × ℚ)
  | st, _, none => (none, st, [])
  | st, now, some cur =>
    let reset :=
      match st with
      | .fresh _ => (now.day, (0 : ℚ), cur, ([] : List (PyDate × ℚ)))
      | .active d t last =>
        if now.day ≠ d then (now.day, 0, cur, [(now, t)])
        else (d, t, last, [])
    let day0 := reset.1
    let total0 := reset.2.1
    let last0 := reset.2.2.1
    let emitted := reset.2.2.2
    let inc := cur - last0
    if 0 ≤ inc then
      (some (total0 + inc), .active day0 (total0 + inc) cur, emitted)
    else
      (some total0, .active day0 total0 cur, emitted)

/-- A value stored in a snapshot dictionary. -/
inductive Val where
  | num (q : ℚ)
  | str (s : String)
deriving DecidableEq

/-- A snapshot: the `current_data` dictionary, as an insertion-ordered
association list. -/
abbrev Snapshot := List (String × Val)

/-- Python `d[k]` / `d.get(k)`: first binding of `k`. -/
def lookupVal (k : String) (d : Snapshot) : Option Val :=
  (d.find? (fun kv => kv.1 == k)).map (fun kv => kv.2)

/-- Python `d.update(e)`: bindings of `e` overwrite those of `d`
(observationally, for `lookupVal`). -/
def dictUpdate (d e : Snapshot) : Snapshot :=
  d.filter (fun kv => e.all (fun kv2 => !(kv2.1 == kv.1))) ++ e

/-- Outcome of one Modbus `read_holding_registers` call: a register list, an
error response (`result.isError()`), or a raised exception. -/
inductive ModbusOutcome where
  | ok (regs : List ℕ)
  | errResp
  | exn
deriving DecidableEq

/-- Outcome of the CSV-backed AQI lookup in `read_aqi_sensor`: a matched row,
a missing data file, an empty data file, or a raised exception. -/
inductive AqiOutcome where
  | ok (co2 pm2_5 pm10 co no2 so2 o3 : ℚ)
  | fileMissing
  | emptyData
  | exn
deriving DecidableEq

/-- The default dictionary `read_environment_sensor` returns on any failure. -/
def envDefault : Snapshot :=
  [("temperature", .num 0), ("humidity", .num 0), ("pressure", .num 0)]

/-- `read_environment_sensor` (awos_refined.py:607): three registers scaled by
10, or all-zero defaults on an error response or exception. -/
def read_environment_sensor : ModbusOutcome → Option Snapshot
  | .ok (r0 :: r1 :: r2 :: _) =>
      some [("temperature", .num ((r0 : ℚ) / 10)),
            ("humidity", .num ((r1 : ℚ) / 10)),
            ("pressure", .num ((r2 : ℚ) / 10))]
  | .ok _ => some envDefault
  | .errResp => some envDefault
  | .exn => some envDefault

/-- `read_uv_sensor` (awos_refined.py:636): one register scaled by 100, or a
zero default on failure. -/
def read_uv_sensor : ModbusOutcome → Option Snapshot
  | .ok (r0 :: _) => some [("uv_index", .num ((r0 : ℚ) / 100))]
  | .ok [] => some [("uv_index", .num 0)]
  | .errResp => some [("uv_index", .num 0)]
  | .exn => some [("uv_index", .num 0)]

/-- `read_aqi_sensor` (awos_refined.py:653): the nearest-timestamp row of the
external dataset, or `{'pm2_5': 0.0}` on any failure. -/
def read_aqi_sensor : AqiOutcome → Option Snapshot
  | .ok c p p10 co no2 so2 o3 =>
      some [("co2", .num c), ("pm2_5", .num p), ("pm10", .num p10),
            ("carbon_monoxide", .num co), ("nitrogen_dioxide", .num no2),
            ("sulphur_dioxide", .num so2), ("ozone", .num o3)]
  | .fileMissing => some [("pm2_5", .num 0)]
  | .emptyData => some [("pm2_5", .num 0)]
  | .exn => some [("pm2_5", .num 0)]

/-- `read_wind_speed` (awos_refined.py:695): one register scaled by 10, or a
zero default on failure. -/
def read_wind_speed : ModbusOutcome → Option Snapshot
  | .ok (r0 :: _) => some [("wind_speed", .num ((r0 : ℚ) / 10))]
  | .ok [] => some [("wind_speed", .num 0)]
  | .errResp => some [("wind_speed", .num 0)]
  | .exn => some [("wind_speed", .num 0)]

/-- `read_wind_direction` (awos_refined.py:712, awos.py:499): average of
registers 0 and 2, scaled by 10, rounded; accepted only in [0, 360], with
`None` (omission) on an out-of-range value or any failure. -/
def read_wind_direction : ModbusOutcome → Option Snapshot
  | .ok (r0 :: _ :: r2 :: _) =>
      let avg : ℚ := ((r0 : ℚ) + (r2 : ℚ)) / 2
      let deg := pyRound (avg / 10)
      if 0 ≤ deg ∧ deg ≤ 360 then
        some [("wind_dir_degrees", .num (deg : ℚ)),
              ("wind_dir_cardinal", .str (degreesToCardinal (some (deg : ℚ))))]
      else none
  | .ok _ => none
  | .errResp => none
  | .exn => none

/-- `read_rainfall` (awos_refined.py:751): one register scaled by 10, or
`None` (omission) on failure. -/
def read_rainfall : ModbusOutcome → Option Snapshot
  | .ok (r0 :: _) => some [("rainfall", .num ((r0 : ℚ) / 10))]
  | .ok [] => none
  | .errResp => none
  | .exn => none

/-- Per-cycle inputs: the timestamp and each logical sensor's outcome, in the
fixed read order of `sensor_reader_loop`. -/
structure CycleInput where
  ts : String
  env : ModbusOutcome
  uv : ModbusOutcome
  aqi : AqiOutcome
  windSpeed : ModbusOutcome
  windDir : ModbusOutcome
  rain : ModbusOutcome

/-- `if data: current_data.update(data)` — a reader returning `None`
contributes nothing. -/
def mergeReading (d : Snapshot) (x : Option Snapshot) : Snapshot :=
  match x with
  | none => d
  | some e => dictUpdate d e

/-- One iteration of `sensor_reader_loop` (awos_refined.py:544): start from the
timestamp, then merge every sensor's reading in the fixed order. -/
def sensor_cycle (inp : CycleInput) : Snapshot :=
  let d0 : Snapshot := [("timestamp", .str inp.ts)]
  let d1 := mergeReading d0 (read_environment_sensor inp.env)
  let d2 := mergeReading d1 (read_uv_sensor inp.uv)
  let d3 := mergeReading d2 (read_aqi_sensor inp.aqi)
  let d4 := mergeReading d3 (read_wind_speed inp.windSpeed)
  let d5 := mergeReading d4 (read_wind_direction inp.windDir)
  mergeReading d5 (read_rainfall inp.rain)

/-- The fixed CSV header written by `csv_writer_loop` (awos_refined.py:783). -/
def headerNames : List String :=
  ["timestamp", "temperature", "humidity", "pressure", "uv_index",
   "co2", "formaldehyde", "tvoc", "pm2_5", "pm10",
   "aqi_temperature", "aqi_humidity",
   "wind_speed", "wind_dir_degrees", "wind_dir_cardinal", "rainfall"]

/-- One CSV cell: `none` is the empty string `''` substituted by `.get`. -/
abbrev Cell := Option Val

/-- One CSV record. -/
abbrev CsvRow := List Cell

/-- The header record itself, as cells. -/
def headerRow : CsvRow := headerNames.map (fun n => some (.str n))

/-- The data record built in `csv_writer_loop` (awos_refined.py:796):
`data['timestamp']` (a `KeyError` aborts the row and is caught at the loop
boundary, hence `none`), then `data.get(k, '')` for each remaining field, in
the source's order. -/
def csvRowOf (d : Snapshot) : Option CsvRow :=
  match lookupVal "timestamp" d with
  | none => none
  | some ts =>
    some [some ts,
      lookupVal "temperature" d, lookupVal "humidity" d, lookupVal "pressure" d,
      lookupVal "uv_index" d, lookupVal "co2" d, lookupVal "formaldehyde" d,
      lookupVal "tvoc" d, lookupVal "pm2_5" d, lookupVal "pm10" d,
      lookupVal "aqi_temperature" d, lookupVal "aqi_humidity" d,
      lookupVal "wind_speed" d, lookupVal "wind_dir_degrees" d,
      lookupVal "wind_dir_cardinal" d, lookupVal "rainfall" d]

/-- The csv_data directory: file name to list of records. -/
abbrev FileSys := List (String × List CsvRow)

/-- `os.path.exists` / reading a file's records. -/
def lookupFile (n : String) (fs : FileSys) : Option (List CsvRow) :=
  (fs.find? (fun e => e.1 == n)).map (fun e => e.2)

/-- Open for append and write one record. -/
def appendRowTo (n : String) (r : CsvRow) (fs : FileSys) : FileSys :=
  fs.map (fun e => if e.1 == n then (e.1, e.2 ++ [r]) else e)

/-- The body of `csv_writer_loop` (awos_refined.py:769) for one dequeued
snapshot: compute today's file name; if absent, create it with the header and
trigger `cleanup_old_csv` (the returned flag); then append the data record. -/
def csv_write_snapshot (fs : FileSys) (today : String) (d : Snapshot) :
    FileSys × Bool :=
  let csvFile := "weather_data_" ++ today ++ ".csv"
  let fs1 :=
    match lookupFile csvFile fs with
    | none => fs ++ [(csvFile, [headerRow])]
    | some _ => fs
  let created := (lookupFile csvFile fs).isNone
  match csvRowOf d with
  | none => (fs1, created)
  | some row => (appendRowTo csvFile row fs1, created)

/-- Object-identity model of the acquisition loop's snapshot hand-off
(awos_refined.py:576, awos.py:395).  Each cycle allocates a fresh dictionary
(`current_data = {...}`), rebinds the live reference (`self.sensor_data =
current_data`), and, at the flush interval, enqueues that same object
(`self.data_queue.put(current_data)`). -/
structure AcqState where
  nextId : ℕ
  live : ℕ
  queued : List ℕ
deriving DecidableEq

/-- One acquisition cycle in the object-identity model; `pushCsv` is whether
the 30 s flush interval elapsed this cycle. -/
def acquisition_cycle (st : AcqState) (pushCsv : Bool) : AcqState :=
  let newId := st.nextId
  { nextId := newId + 1
    live := newId
    queued := if pushCsv then st.queued ++ [newId] else st.queued }

/-- A file name, as a character list. -/
abbrev FName := List Char

/-- Worker for `stripAll`, structurally recursive on a fuel argument that is
at least the length of the scanned list (so the exhaustion case is
unreachable). -/
def stripAllGo (pat : FName) : ℕ → FName → FName
  | _, [] => []
  | 0, s => s
  | fuel + 1, c :: rest =>
    if !pat.isEmpty && pat.isPrefixOf (c :: rest) then
      stripAllGo pat fuel ((c :: rest).drop pat.length)
    else
      c :: stripAllGo pat fuel rest

/-- Python `s.replace(pat, '')`: remove every (leftmost, non-overlapping)
occurrence of `pat`. -/
def stripAll (pat : FName) (s : FName) : FName :=
  stripAllGo pat s.length s

/-- `c.isdigit()` for ASCII digits. -/
def isDigitCh (c : Char) : Bool := '0' ≤ c && c ≤ '9'

/-- Numeric value of a digit string. -/
def digitsVal (cs : List Char) : ℕ :=
  cs.foldl (fun a c => a * 10 + (c.toNat - 48)) 0

/-- The Gregorian leap-year rule used by `datetime`. -/
def isLeapYear (y : ℕ) : Bool := y % 4 == 0 && (y % 100 != 0 || y % 400 == 0)

/-- Length of a month, as validated by the `datetime` constructor. -/
def daysInMonth (y m : ℕ) : ℕ :=
  if m = 2 then (if isLeapYear y then 29 else 28)
  else if m = 4 ∨ m = 6 ∨ m = 9 ∨ m = 11 then 30 else 31

/-- Split a character list on `-`. -/
def splitOnDash (cs : List Char) : List (List Char) :=
  cs.foldr
    (fun c acc =>
      if c = '-' then [] :: acc
      else
        match acc with
        | [] => [[c]]
        | g :: gs => (c :: g) :: gs)
    [[]]

/-- `datetime.strptime(s, '%Y-%m-%d')`: exactly three dash-separated digit
groups — a four-digit year (at least 1), a one- or two-digit month in 1..12,
and a one- or two-digit day valid for that month. -/
def parseYMD (cs : List Char) : Option (ℕ × ℕ × ℕ) :=
  match splitOnDash cs with
  | [ys, ms, ds] =>
    if ys.length = 4 ∧ ys.all isDigitCh = true ∧ 1 ≤ digitsVal ys
       ∧ (ms.length = 1 ∨ ms.length = 2) ∧ ms.all isDigitCh = true
       ∧ 1 ≤ digitsVal ms ∧ digitsVal ms ≤ 12
       ∧ (ds.length = 1 ∨ ds.length = 2) ∧ ds.all isDigitCh = true
       ∧ 1 ≤ digitsVal ds ∧ digitsVal ds ≤ daysInMonth (digitsVal ys) (digitsVal ms)
    then some (digitsVal ys, digitsVal ms, digitsVal ds) else none
  | _ => none

/-- Days in the full months preceding month `m` of a non-leap year. -/
def daysBeforeMonth (m : ℕ) : ℕ :=
  [0, 0, 31, 59, 90, 120, 151, 181, 212, 243, 273, 304, 334].getD m 0

/-- `datetime.date.toordinal`: proleptic-Gregorian day number, so that
`(d1 - d2).days` is the difference of ordinals. -/
def toOrdinal (y m d : ℕ) : ℕ :=
  let py := y - 1
  365 * py + py / 4 - py / 100 + py / 400 + daysBeforeMonth m
    + (if 2 < m ∧ isLeapYear y = true then 1 else 0) + d

/-- The per-file test of `cleanup_old_csv` (awos_refined.py:249) and
`cleanup_old_logs` (awos_refined.py:161): name starts with the prefix and ends
with the extension; stripping every occurrence of both (Python `replace`)
leaves a parsable date; and that date is more than 7 days old. -/
def fileExpired (pre suf : FName) (today : ℕ × ℕ × ℕ) (f : FName) : Bool :=
  pre.isPrefixOf f && suf.isSuffixOf f &&
    (match parseYMD (stripAll suf (stripAll pre f)) with
     | some (y, m, d) =>
        decide ((7 : ℤ) < (toOrdinal today.1 today.2.1 today.2.2 : ℤ) - (toOrdinal y m d : ℤ))
     | none => false)

/-- The retention sweep's directory scan: each file is removed exactly when
`fileExpired` holds; a parse failure is caught per file and the scan
continues. -/
def cleanupFiles (pre suf : FName) (today : ℕ × ℕ × ℕ) : List FName → List FName
  | [] => []
  | f :: rest =>
    if fileExpired pre suf today f then cleanupFiles pre suf today rest
    else f :: cleanupFiles pre suf today rest

/-- The prefix of daily data files. -/
def csvPre : FName := "weather_data_".toList

/-- The extension of daily data files. -/
def csvSuf : FName := ".csv".toList

/-- Follows the spec's words, for comparison with `fileExpired`: the name
matches `<prefix>_<YYYY-MM-DD>.<ext>` — one leading prefix, one trailing
extension, and the characters between them parse as the embedded date — and
that date is more than 7 days old. -/
def specPatternExpired (pre suf : FName) (today : ℕ × ℕ × ℕ) (f : FName) : Bool :=
  pre.isPrefixOf f && suf.isSuffixOf f &&
    (match parseYMD ((f.drop pre.length).take (f.length - pre.length - suf.length)) with
     | some (y, m, d) =>
        decide ((7 : ℤ) < (toOrdinal today.1 today.2.1 today.2.2 : ℤ) - (toOrdinal y m d : ℤ))
     | none => false)

/-- C3: `calculate_aqi` propagates an absent PM2.5 as an absent AQI, and on
every value inside an EPA breakpoint band (and above the last band) computes
`low_aqi + (value - low_conc) / (high_conc - low_conc) * (high_aqi - low_aqi)`
for that band; at the boundaries, AQI(12.0) = 50 and AQI(12.1) = 51. -/
theorem aqi_band_formula :
    calculate_aqi none = none ∧
    (∀ v : ℚ, 0 ≤ v → v ≤ 12 →
      calculate_aqi (some v) = some (0 + (v - 0) / (12 - 0) * (50 - 0))) ∧
    (∀ v : ℚ, 12.1 ≤ v → v ≤ 35.4 →
      calculate_aqi (some v) = some (51 + (v - 12.1) / (35.4 - 12.1) * (100 - 51))) ∧
    (∀ v : ℚ, 35.5 ≤ v → v ≤ 55.4 →
      calculate_aqi (some v) = some (101 + (v - 35.5) / (55.4 - 35.5) * (150 - 101))) ∧
    (∀ v : ℚ, 55.5 ≤ v → v ≤ 150.4 →
      calculate_aqi (some v) = some (151 + (v - 55.5) / (150.4 - 55.5) * (200 - 151))) ∧
    (∀ v : ℚ, 150.5 ≤ v → v ≤ 250.4 →
      calculate_aqi (some v) = some (201 + (v - 150.5) / (250.4 - 150.5) * (300 - 201))) ∧
    (∀ v : ℚ, 250.4 < v →
      calculate_aqi (some v) = some (301 + (v - 250.5) / (500.4 - 250.5) * (500 - 301))) ∧
    calculate_aqi (some 12) = some 50 ∧
    calculate_aqi (some 12.1) = some 51 := by
  refine ⟨rfl, ?_, ?_, ?_, ?_, ?_, ?_, ?_, ?_⟩
  · intro v h0 h1
    simp only [calculate_aqi]
    rw [if_pos h1]
    congr 1
    ring
  · intro v h0 h1
    simp only [calculate_aqi]
    rw [if_neg (by linarith), if_pos h1]
    congr 1
    ring
  · intro v h0 h1
    simp only [calculate_aqi]
    rw [if_neg (by linarith), if_neg (by linarith), if_pos h1]
    congr 1
    ring
  · intro v h0 h1
    simp only [calculate_aqi]
    rw [if_neg (by linarith), if_neg (by linarith), if_neg (by linarith), if_pos h1]
    congr 1
    ring
  · intro v h0 h1
    simp only [calculate_aqi]
    rw [if_neg (by linarith), if_neg (by linarith), if_neg (by linarith),
      if_neg (by linarith), if_pos h1]
    congr 1
    ring
  · intro v h0
    simp only [calculate_aqi]
    rw [if_neg (by linarith), if_neg (by linarith), if_neg (by linarith),
      if_neg (by linarith), if_neg (by linarith)]
    congr 1
    ring
  · norm_num [calculate_aqi]
  · norm_num [calculate_aqi]

/-- Witness for C3: the band formula evaluated at the concrete inputs 20
(second band) and 300 (extrapolation above 250.4). -/
theorem aqi_band_formula_witness :
    calculate_aqi (some 20) = some (51 + (20 - 12.1) / (35.4 - 12.1) * (100 - 51)) ∧
    calculate_aqi (some 300) = some (301 + (300 - 250.5) / (500.4 - 250.5) * (500 - 301)) :=
  ⟨aqi_band_formula.2.2.1 20 (by norm_num) (by norm_num),
   aqi_band_formula.2.2.2.2.2.2.1 300 (by norm_num)⟩

/-- C6: `_degrees_to_cardinal` maps every degrees value in [0, 360] to the
16-point label at index `round(d / 22.5) mod 16` with index 0 = "N" (in
particular 0 ↦ "N" and 180 ↦ "S"), and maps `None` and every out-of-range
value (including 361 and -1) to "Unknown". -/
theorem cardinal_direction_mapping :
    (∀ d : ℚ, 0 ≤ d → d ≤ 360 →
      degreesToCardinal (some d) =
        directions.getD (pyRound (d / 22.5) % 16).toNat "Unknown") ∧
    directions.getD 0 "Unknown" = "N" ∧
    degreesToCardinal (some 0) = "N" ∧
    degreesToCardinal (some 180) = "S" ∧
    degreesToCardinal none = "Unknown" ∧
    degreesToCardinal (some 361) = "Unknown" ∧
    degreesToCardinal (some (-1)) = "Unknown" ∧
    (∀ d : ℚ, ¬ (0 ≤ d ∧ d ≤ 360) → degreesToCardinal (some d) = "Unknown") := by
  refine ⟨?_, rfl, ?_, ?_, rfl, ?_, ?_, ?_⟩
  · intro d h0 h1
    simp only [degreesToCardinal]
    rw [if_pos ⟨h0, h1⟩]
    have hl : directions.length = 16 := rfl
    rw [hl]
    norm_num
  · norm_num [degreesToCardinal, pyRound, directions]
  · norm_num [degreesToCardinal, pyRound, directions]
    rfl
  · norm_num [degreesToCardinal]
  · norm_num [degreesToCardinal]
  · intro d h
    simp only [degreesToCardinal]
    rw [if_neg h]

/-- Witness for C6: the general mapping applied at 45 (index 2, "NE") and the
out-of-range case applied at 400. -/
theorem cardinal_direction_mapping_witness :
    degreesToCardinal (some 45) =
      directions.getD (pyRound ((45 : ℚ) / 22.5) % 16).toNat "Unknown" ∧
    degreesToCardinal (some 400) = "Unknown" :=
  ⟨cardinal_direction_mapping.1 45 (by norm_num) (by norm_num),
   cardinal_direction_mapping.2.2.2.2.2.2.2 400 (by norm_num)⟩

/-- C10: each classification function is total on numeric input and sends
every negative value to the highest band — the `0 ≤ x` lower bound is tested
only in the first branch, so negative values fall through every band to the
final `else`. -/
theorem classification_negative_input :
    (∀ u : ℚ, u < 0 → get_uv_state (some u) = ("EXTREME", "#8F3F97")) ∧
    (∀ a : ℚ, a < 0 → get_aqi_state (some a) = ("HAZARDOUS", "#7E0023")) ∧
    (∀ h : ℚ, h < 0 → get_humidity_state (some h) = ("VERY HIGH", "#FF0000")) := by
  refine ⟨?_, ?_, ?_⟩
  · intro u hu
    simp only [get_uv_state]
    rw [if_neg (by rintro ⟨h1, h2⟩; linarith), if_neg (by rintro ⟨h1, h2⟩; linarith),
      if_neg (by rintro ⟨h1, h2⟩; linarith), if_neg (by rintro ⟨h1, h2⟩; linarith)]
  · intro a ha
    simp only [get_aqi_state]
    rw [if_neg (by rintro ⟨h1, h2⟩; linarith), if_neg (by rintro ⟨h1, h2⟩; linarith),
      if_neg (by rintro ⟨h1, h2⟩; linarith), if_neg (by rintro ⟨h1, h2⟩; linarith),
      if_neg (by rintro ⟨h1, h2⟩; linarith)]
  · intro h hh
    simp only [get_humidity_state]
    rw [if_neg (by rintro ⟨h1, h2⟩; linarith), if_neg (by rintro ⟨h1, h2⟩; linarith),
      if_neg (by rintro ⟨h1, h2⟩; linarith), if_neg (by rintro ⟨h1, h2⟩; linarith)]

/-- Witness for C10: all three classifiers evaluated at -1. -/
theorem classification_negative_input_witness :
    get_uv_state (some (-1)) = ("EXTREME", "#8F3F97") ∧
    get_aqi_state (some (-1)) = ("HAZARDOUS", "#7E0023") ∧
    get_humidity_state (some (-1)) = ("VERY HIGH", "#FF0000") :=
  ⟨classification_negative_input.1 (-1) (by norm_num),
   classification_negative_input.2.1 (-1) (by norm_num),
   classification_negative_input.2.2 (-1) (by norm_num)⟩

/-- C7: for a successful wind-direction register read, the reported degrees
value is `round(((regs[0] + regs[2]) / 2) / 10)`; it is accepted (with its
cardinal label) exactly when it lies in [0, 360], and an out-of-range value is
discarded as absent, not clamped. -/
theorem wind_direction_read_spec :
    ∀ (r0 r1 r2 : ℕ) (rest : List ℕ),
      (0 ≤ pyRound ((((r0 : ℚ) + (r2 : ℚ)) / 2) / 10) ∧
          pyRound ((((r0 : ℚ) + (r2 : ℚ)) / 2) / 10) ≤ 360 →
        read_wind_direction (.ok (r0 :: r1 :: r2 :: rest)) =
          some [("wind_dir_degrees",
                  .num ((pyRound ((((r0 : ℚ) + (r2 : ℚ)) / 2) / 10) : ℤ) : ℚ)),
                ("wind_dir_cardinal",
                  .str (degreesToCardinal
                    (some ((pyRound ((((r0 : ℚ) + (r2 : ℚ)) / 2) / 10) : ℤ) : ℚ))))]) ∧
      (¬ (0 ≤ pyRound ((((r0 : ℚ) + (r2 : ℚ)) / 2) / 10) ∧
            pyRound ((((r0 : ℚ) + (r2 : ℚ)) / 2) / 10) ≤ 360) →
        read_wind_direction (.ok (r0 :: r1 :: r2 :: rest)) = none) := by
  intro r0 r1 r2 rest
  constructor
  · intro h
    simp only [read_wind_direction]
    rw [if_pos h]
  · intro h
    simp only [read_wind_direction]
    rw [if_neg h]

/-- Witness for C7: registers [1800, 0, 1800] give 180° ("S"); registers
[60000, 0, 60000] give 6000, which is out of range and discarded. -/
theorem wind_direction_read_spec_witness :
    read_wind_direction (.ok [1800, 0, 1800]) =
      some [("wind_dir_degrees",
              .num ((pyRound ((((1800 : ℕ) : ℚ) + ((1800 : ℕ) : ℚ)) / 2 / 10) : ℤ) : ℚ)),
            ("wind_dir_cardinal",
              .str (degreesToCardinal
                (some ((pyRound ((((1800 : ℕ) : ℚ) + ((1800 : ℕ) : ℚ)) / 2 / 10) : ℤ) : ℚ))))] ∧
    read_wind_direction (.ok [60000, 0, 60000]) = none :=
  ⟨(wind_direction_read_spec 1800 0 1800 []).1 (by norm_num [pyRound]),
   (wind_direction_read_spec 60000 0 60000 []).2 (by norm_num [pyRound])⟩

/-- C2: within the same day, each reading adds `delta = currentRaw -
lastRawValue` to the daily total when `delta ≥ 0` (advancing `lastRawValue`),
discards a negative delta while resynchronizing `lastRawValue`, always returns
the running daily total (the new state's total, never the raw counter), and
the concrete sequences [10, 12, 15] and then [15, 3] behave as specified. -/
theorem rainfall_same_day_accumulation :
    (∀ (d : ℕ) (t last cur : ℚ) (now : PyDate), now.day = d → 0 ≤ cur - last →
      process_rainfall (.active d t last) now (some cur) =
        (some (t + (cur - last)), .active d (t + (cur - last)) cur, [])) ∧
    (∀ (d : ℕ) (t last cur : ℚ) (now : PyDate), now.day = d → cur - last < 0 →
      process_rainfall (.active d t last) now (some cur) =
        (some t, .active d t cur, [])) ∧
    (∀ (st : RainState) (now : PyDate) (cur : ℚ),
      ∃ dy tot em, process_rainfall st now (some cur) = (some tot, .active dy tot cur, em)) ∧
    (process_rainfall (.fresh 0) ⟨2026, 10, 12⟩ (some 10) =
        (some 0, .active 12 0 10, []) ∧
      process_rainfall (.active 12 0 10) ⟨2026, 10, 12⟩ (some 12) =
        (some 2, .active 12 2 12, []) ∧
      process_rainfall (.active 12 2 12) ⟨2026, 10, 12⟩ (some 15) =
        (some 5, .active 12 5 15, []) ∧
      process_rainfall (.active 12 5 15) ⟨2026, 10, 12⟩ (some 3) =
        (some 5, .active 12 5 3, [])) := by
  refine ⟨?_, ?_, ?_, ?_, ?_, ?_, ?_⟩
  · intro d t last cur now hday hinc
    simp [process_rainfall, hday, hinc]
  · intro d t last cur now hday hinc
    simp [process_rainfall, hday, not_le.mpr hinc]
  · intro st now cur
    cases st with
    | fresh l =>
      refine ⟨now.day, 0 + (cur - cur), [], ?_⟩
      simp [process_rainfall]
    | active d t last =>
      by_cases hday : now.day = d
      · by_cases hinc : 0 ≤ cur - last
        · exact ⟨d, t + (cur - last), [], by simp [process_rainfall, hday, hinc]⟩
        · exact ⟨d, t, [], by simp [process_rainfall, hday, hinc]⟩
      · refine ⟨now.day, 0 + (cur - cur), [(now, t)], ?_⟩
        simp [process_rainfall, hday]
  · norm_num [process_rainfall]
  · norm_num [process_rainfall]
  · norm_num [process_rainfall]
  · norm_num [process_rainfall]

/-- Witness for C2: the two within-day update laws applied at concrete
inputs — total 1.5 with delta 2 (nonnegative) and total 4 with delta -12
(negative, discarded). -/
theorem rainfall_same_day_accumulation_witness :
    process_rainfall (.active 5 1.5 10) ⟨2026, 10, 5⟩ (some 12) =
      (some (1.5 + ((12 : ℚ) - 10)), .active 5 (1.5 + ((12 : ℚ) - 10)) 12, []) ∧
    process_rainfall (.active 5 4 15) ⟨2026, 10, 5⟩ (some 3) =
      (some 4, .active 5 4 3, []) :=
  ⟨rainfall_same_day_accumulation.1 5 1.5 10 12 ⟨2026, 10, 5⟩ rfl (by norm_num),
   rainfall_same_day_accumulation.2.1 5 4 15 3 ⟨2026, 10, 5⟩ rfl (by norm_num)⟩

/-- C1 counterexample: crossing midnight into 2026-10-12 with a pending total
of 7.5 emits exactly one row, but its date field is the new day's date
2026-10-12 (`store_daily_rainfall` stamps rows with `datetime.now()`), not
yesterday's date 2026-10-11 as the claim states. -/
theorem rainfall_midnight_rollover_counterexample :
    (process_rainfall (.active 11 7.5 3) ⟨2026, 10, 12⟩ (some 3)).2.2 =
      [((⟨2026, 10, 12⟩ : PyDate), (7.5 : ℚ))] ∧
    (process_rainfall (.active 11 7.5 3) ⟨2026, 10, 12⟩ (some 3)).2.2 ≠
      [((⟨2026, 10, 11⟩ : PyDate), (7.5 : ℚ))] := by
  constructor
  · norm_num [process_rainfall]
  · norm_num [process_rainfall]

/-- C1 amended: on the first reading of a new calendar day, a pending
previous-day total is emitted as exactly one row stamped with the *current*
(new day's) date, after which the daily total is reset to 0 and
`lastRawValue` is set to the current raw reading; with no pending total
(first reading ever) nothing is emitted. -/
theorem rainfall_midnight_rollover_amended :
    (∀ (d : ℕ) (t last cur : ℚ) (now : PyDate), now.day ≠ d →
      process_rainfall (.active d t last) now (some cur) =
        (some 0, .active now.day 0 cur, [(now, t)])) ∧
    (∀ (l cur : ℚ) (now : PyDate),
      process_rainfall (.fresh l) now (some cur) =
        (some 0, .active now.day 0 cur, [])) := by
  constructor
  · intro d t last cur now hday
    simp [process_rainfall, hday]
  · intro l cur now
    simp [process_rainfall]

/-- Witness for C1: the day-boundary law applied with pending total 7.5,
crossing from day 11 to 2026-10-12. -/
theorem rainfall_midnight_rollover_witness :
    process_rainfall (.active 11 7.5 3) ⟨2026, 10, 12⟩ (some 3) =
      (some 0, .active 12 0 3, [(⟨2026, 10, 12⟩, 7.5)]) :=
  rainfall_midnight_rollover_amended.1 11 7.5 3 3 ⟨2026, 10, 12⟩ (by norm_num)

/-- C4 counterexample: after a cycle that pushes to the persistence queue, the
queued entry is the very object that is also the live snapshot — `put` is
called on `current_data` itself, with no clone — so the queued mapping and the
live snapshot are not distinct objects. -/
theorem queued_snapshot_aliasing_counterexample :
    (acquisition_cycle ⟨1, 0, []⟩ true).queued =
      [(acquisition_cycle ⟨1, 0, []⟩ true).live] := by
  decide

/-- C4 amended: the queue receives the live snapshot object itself (no copy is
taken at push time), but every cycle installs a freshly allocated snapshot as
the new live one and never mutates an existing object, so a snapshot already
on the queue is never the live snapshot of any later cycle. -/
theorem queued_snapshot_aliasing_amended :
    ∀ (st : AcqState) (b : Bool),
      (acquisition_cycle st true).queued.getLast? =
          some (acquisition_cycle st true).live ∧
      ((∀ i ∈ st.queued, i < st.nextId) → st.live < st.nextId →
        ((∀ i ∈ (acquisition_cycle st b).queued, i < (acquisition_cycle st b).nextId) ∧
          (acquisition_cycle st b).live < (acquisition_cycle st b).nextId ∧
          (∀ i ∈ st.queued, i ≠ (acquisition_cycle st b).live))) := by
  intro st b
  constructor
  · simp [acquisition_cycle, List.getLast?_concat]
  · intro hq hl
    refine ⟨?_, ?_, ?_⟩
    · intro i hi
      cases b with
      | true =>
        simp only [acquisition_cycle, if_pos rfl] at hi ⊢
        rcases List.mem_append.mp hi with h | h
        · exact Nat.lt_succ_of_lt (hq i h)
        · simp at h
          omega
      | false =>
        simp only [acquisition_cycle, Bool.false_eq_true, if_false] at hi ⊢
        exact Nat.lt_succ_of_lt (hq i hi)
    · simp [acquisition_cycle]
    · intro i hi
      have := hq i hi
      simp only [acquisition_cycle]
      omega

/-- Witness for C4: the amended freshness law applied at a concrete state with
one queued object. -/
theorem queued_snapshot_aliasing_witness :
    (∀ i ∈ (AcqState.mk 2 1 [0]).queued, i < (AcqState.mk 2 1 [0]).nextId) ∧
    (∀ i ∈ (AcqState.mk 2 1 [0]).queued,
      i ≠ (acquisition_cycle (AcqState.mk 2 1 [0]) true).live) :=
  ⟨by decide,
   ((queued_snapshot_aliasing_amended (AcqState.mk 2 1 [0]) true).2
     (by decide) (by decide)).2.2⟩

/-- Removing only elements that fail the search predicate does not change the
result of `find?`. -/
theorem find?_filter_eq {α : Type} (p q : α → Bool) :
    ∀ l : List α, (∀ a ∈ l, p a = true → q a = true) →
      (l.filter q).find? p = l.find? p := by
  intro l
  induction l with
  | nil => intro _; rfl
  | cons a tl ih =>
    intro h
    by_cases hp : p a = true
    · rw [List.filter_cons_of_pos (h a (by simp) hp), List.find?_cons_of_pos _ hp,
        List.find?_cons_of_pos _ hp]
    · by_cases hq : q a = true
      · rw [List.filter_cons_of_pos hq, List.find?_cons_of_neg _ hp,
          List.find?_cons_of_neg _ hp]
        exact ih (fun x hx hpx => h x (by simp [hx]) hpx)
      · rw [List.filter_cons_of_neg hq, List.find?_cons_of_neg _ hp]
        exact ih (fun x hx hpx => h x (by simp [hx]) hpx)

/-- A `dict.update` whose right-hand side never binds `k` does not change the
lookup of `k`. -/
theorem lookupVal_dictUpdate_notkey (k : String) (d e : Snapshot)
    (h : ∀ kv ∈ e, kv.1 ≠ k) :
    lookupVal k (dictUpdate d e) = lookupVal k d := by
  unfold lookupVal dictUpdate
  rw [List.find?_append]
  have he : e.find? (fun kv => kv.1 == k) = none :=
    List.find?_eq_none.mpr (fun kv hkv => by simpa using h kv hkv)
  rw [he, Option.or_none]
  rw [find?_filter_eq _ _ d ?side]
  case side =>
    intro kv hkv hp
    simp only [List.all_eq_true]
    intro kv2 hkv2
    have h1 : kv.1 = k := by simpa using hp
    have h2 : kv2.1 ≠ k := h kv2 hkv2
    simp [h1, h2]

/-- A skipped reading (`None`) or one that never binds `k` does not change the
lookup of `k`. -/
theorem lookupVal_mergeReading_skip (k : String) (d : Snapshot) (x : Option Snapshot)
    (h : ∀ e, x = some e → ∀ kv ∈ e, kv.1 ≠ k) :
    lookupVal k (mergeReading d x) = lookupVal k d := by
  cases x with
  | none => rfl
  | some e => exact lookupVal_dictUpdate_notkey k d e (h e rfl)

/-- A `dict.update` whose right-hand side binds `k` resolves the lookup of `k`
on the right-hand side. -/
theorem lookupVal_dictUpdate_found (k : String) (d e : Snapshot)
    (h : (e.find? (fun kv => kv.1 == k)).isSome) :
    lookupVal k (dictUpdate d e) = lookupVal k e := by
  unfold lookupVal dictUpdate
  rw [List.find?_append]
  obtain ⟨a, ha⟩ := Option.isSome_iff_exists.mp h
  have hfilter : (d.filter (fun kv => e.all (fun kv2 => !(kv2.1 == kv.1)))).find?
      (fun kv => kv.1 == k) = none := by
    apply List.find?_eq_none.mpr
    intro kv hkv
    have hcond := (List.mem_filter.mp hkv).2
    simp only [List.all_eq_true] at hcond
    intro hp
    have h1 : kv.1 = k := by simpa using hp
    have h2 := hcond a (List.mem_of_find?_eq_some ha)
    have h3 : a.1 = k := by simpa using List.find?_some ha
    rw [h1] at h2
    simp [h3] at h2
  rw [hfilter, Option.none_or]

/-- The environment reader only ever binds its three fixed keys. -/
theorem env_keys_ne (k : String) (h1 : k ≠ "temperature") (h2 : k ≠ "humidity")
    (h3 : k ≠ "pressure") :
    ∀ o e, read_environment_sensor o = some e → ∀ kv ∈ e, kv.1 ≠ k := by
  intro o e he kv hm
  cases o with
  | ok regs =>
    rcases regs with _ | ⟨r0, _ | ⟨r1, _ | ⟨r2, rest⟩⟩⟩
    · obtain rfl : envDefault = e := Option.some.inj he
      simp only [envDefault, List.mem_cons, List.not_mem_nil, or_false] at hm
      rcases hm with rfl | rfl | rfl
      · exact Ne.symm h1
      · exact Ne.symm h2
      · exact Ne.symm h3
    · obtain rfl : envDefault = e := Option.some.inj he
      simp only [envDefault, List.mem_cons, List.not_mem_nil, or_false] at hm
      rcases hm with rfl | rfl | rfl
      · exact Ne.symm h1
      · exact Ne.symm h2
      · exact Ne.symm h3
    · obtain rfl : envDefault = e := Option.some.inj he
      simp only [envDefault, List.mem_cons, List.not_mem_nil, or_false] at hm
      rcases hm with rfl | rfl | rfl
      · exact Ne.symm h1
      · exact Ne.symm h2
      · exact Ne.symm h3
    · obtain rfl :
          [("temperature", Val.num ((r0 : ℚ) / 10)), ("humidity", Val.num ((r1 : ℚ) / 10)),
            ("pressure", Val.num ((r2 : ℚ) / 10))] = e := Option.some.inj he
      simp only [List.mem_cons, List.not_mem_nil, or_false] at hm
      rcases hm with rfl | rfl | rfl
      · exact Ne.symm h1
      · exact Ne.symm h2
      · exact Ne.symm h3
  | errResp =>
    obtain rfl : envDefault = e := Option.some.inj he
    simp only [envDefault, List.mem_cons, List.not_mem_nil, or_false] at hm
    rcases hm with rfl | rfl | rfl
    · exact Ne.symm h1
    · exact Ne.symm h2
    · exact Ne.symm h3
  | exn =>
    obtain rfl : envDefault = e := Option.some.inj he
    simp only [envDefault, List.mem_cons, List.not_mem_nil, or_false] at hm
    rcases hm with rfl | rfl | rfl
    · exact Ne.symm h1
    · exact Ne.symm h2
    · exact Ne.symm h3

/-- The UV reader only ever binds `uv_index`. -/
theorem uv_keys_ne (k : String) (h1 : k ≠ "uv_index") :
    ∀ o e, read_uv_sensor o = some e → ∀ kv ∈ e, kv.1 ≠ k := by
  intro o e he kv hm
  cases o with
  | ok regs =>
    rcases regs with _ | ⟨r0, rest⟩
    · obtain rfl : [("uv_index", Val.num 0)] = e := Option.some.inj he
      simp only [List.mem_cons, List.not_mem_nil, or_false] at hm
      rcases hm with rfl
      exact Ne.symm h1
    · obtain rfl : [("uv_index", Val.num ((r0 : ℚ) / 100))] = e := Option.some.inj he
      simp only [List.mem_cons, List.not_mem_nil, or_false] at hm
      rcases hm with rfl
      exact Ne.symm h1
  | errResp =>
    obtain rfl : [("uv_index", Val.num 0)] = e := Option.some.inj he
    simp only [List.mem_cons, List.not_mem_nil, or_false] at hm
    rcases hm with rfl
    exact Ne.symm h1
  | exn =>
    obtain rfl : [("uv_index", Val.num 0)] = e := Option.some.inj he
    simp only [List.mem_cons, List.not_mem_nil, or_false] at hm
    rcases hm with rfl
    exact Ne.symm h1

/-- The AQI reader only ever binds its seven dataset keys. -/
theorem aqi_keys_ne (k : String) (h1 : k ≠ "co2") (h2 : k ≠ "pm2_5") (h3 : k ≠ "pm10")
    (h4 : k ≠ "carbon_monoxide") (h5 : k ≠ "nitrogen_dioxide") (h6 : k ≠ "sulphur_dioxide")
    (h7 : k ≠ "ozone") :
    ∀ o e, read_aqi_sensor o = some e → ∀ kv ∈ e, kv.1 ≠ k := by
  intro o e he kv hm
  cases o with
  | ok c p p10 co no2 so2 o3 =>
    obtain rfl :
        [("co2", Val.num c), ("pm2_5", Val.num p), ("pm10", Val.num p10),
          ("carbon_monoxide", Val.num co), ("nitrogen_dioxide", Val.num no2),
          ("sulphur_dioxide", Val.num so2), ("ozone", Val.num o3)] = e := Option.some.inj he
    simp only [List.mem_cons, List.not_mem_nil, or_false] at hm
    rcases hm with rfl | rfl | rfl | rfl | rfl | rfl | rfl
    · exact Ne.symm h1
    · exact Ne.symm h2
    · exact Ne.symm h3
    · exact Ne.symm h4
    · exact Ne.symm h5
    · exact Ne.symm h6
    · exact Ne.symm h7
  | fileMissing =>
    obtain rfl : [("pm2_5", Val.num 0)] = e := Option.some.inj he
    simp only [List.mem_cons, List.not_mem_nil, or_false] at hm
    rcases hm with rfl
    exact Ne.symm h2
  | emptyData =>
    obtain rfl : [("pm2_5", Val.num 0)] = e := Option.some.inj he
    simp only [List.mem_cons, List.not_mem_nil, or_false] at hm
    rcases hm with rfl
    exact Ne.symm h2
  | exn =>
    obtain rfl : [("pm2_5", Val.num 0)] = e := Option.some.inj he
    simp only [List.mem_cons, List.not_mem_nil, or_false] at hm
    rcases hm with rfl
    exact Ne.symm h2

/-- The wind-speed reader only ever binds `wind_speed`. -/
theorem wind_speed_keys_ne (k : String) (h1 : k ≠ "wind_speed") :
    ∀ o e, read_wind_speed o = some e → ∀ kv ∈ e, kv.1 ≠ k := by
  intro o e he kv hm
  cases o with
  | ok regs =>
    rcases regs with _ | ⟨r0, rest⟩
    · obtain rfl : [("wind_speed", Val.num 0)] = e := Option.some.inj he
      simp only [List.mem_cons, List.not_mem_nil, or_false] at hm
      rcases hm with rfl
      exact Ne.symm h1
    · obtain rfl : [("wind_speed", Val.num ((r0 : ℚ) / 10))] = e := Option.some.inj he
      simp only [List.mem_cons, List.not_mem_nil, or_false] at hm
      rcases hm with rfl
      exact Ne.symm h1
  | errResp =>
    obtain rfl : [("wind_speed", Val.num 0)] = e := Option.some.inj he
    simp only [List.mem_cons, List.not_mem_nil, or_false] at hm
    rcases hm with rfl
    exact Ne.symm h1
  | exn =>
    obtain rfl : [("wind_speed", Val.num 0)] = e := Option.some.inj he
    simp only [List.mem_cons, List.not_mem_nil, or_false] at hm
    rcases hm with rfl
    exact Ne.symm h1

/-- The wind-direction reader only ever binds its two fixed keys. -/
theorem wind_dir_keys_ne (k : String) (h1 : k ≠ "wind_dir_degrees")
    (h2 : k ≠ "wind_dir_cardinal") :
    ∀ o e, read_wind_direction o = some e → ∀ kv ∈ e, kv.1 ≠ k := by
  intro o e he kv hm
  cases o with
  | ok regs =>
    rcases regs with _ | ⟨r0, _ | ⟨r1, _ | ⟨r2, rest⟩⟩⟩
    · exact Option.noConfusion he
    · exact Option.noConfusion he
    · exact Option.noConfusion he
    · simp only [read_wind_direction] at he
      split at he
      · obtain rfl := Option.some.inj he
        simp only [List.mem_cons, List.not_mem_nil, or_false] at hm
        rcases hm with rfl | rfl
        · exact Ne.symm h1
        · exact Ne.symm h2
      · exact Option.noConfusion he
  | errResp => exact Option.noConfusion he
  | exn => exact Option.noConfusion he

/-- The rainfall reader only ever binds `rainfall`. -/
theorem rainfall_keys_ne (k : String) (h1 : k ≠ "rainfall") :
    ∀ o e, read_rainfall o = some e → ∀ kv ∈ e, kv.1 ≠ k := by
  intro o e he kv hm
  cases o with
  | ok regs =>
    rcases regs with _ | ⟨r0, rest⟩
    · exact Option.noConfusion he
    · obtain rfl : [("rainfall", Val.num ((r0 : ℚ) / 10))] = e := Option.some.inj he
      simp only [List.mem_cons, List.not_mem_nil, or_false] at hm
      rcases hm with rfl
      exact Ne.symm h1
  | errResp => exact Option.noConfusion he
  | exn => exact Option.noConfusion he

/-- A reading known to be `None` contributes nothing to the cycle. -/
theorem lookupVal_mergeReading_none (k : String) (d : Snapshot) (x : Option Snapshot)
    (h : x = none) : lookupVal k (mergeReading d x) = lookupVal k d := by
  rw [h]
  rfl

/-- C5: in every acquisition cycle, a per-sensor failure (error response or
exception) substitutes the defined default — zeros for environment, UV, wind
speed and AQI (pm2_5), omission for wind direction and rainfall — while the
cycle still completes with its timestamp and every other sensor's keys
unaffected (e.g. a UV register read succeeds regardless of the other
outcomes). -/
theorem sensor_failure_defaults :
    ∀ inp : CycleInput,
      lookupVal "timestamp" (sensor_cycle inp) = some (.str inp.ts) ∧
      ((inp.env = .errResp ∨ inp.env = .exn) →
        lookupVal "temperature" (sensor_cycle inp) = some (.num 0) ∧
        lookupVal "humidity" (sensor_cycle inp) = some (.num 0) ∧
        lookupVal "pressure" (sensor_cycle inp) = some (.num 0)) ∧
      ((inp.uv = .errResp ∨ inp.uv = .exn) →
        lookupVal "uv_index" (sensor_cycle inp) = some (.num 0)) ∧
      ((inp.aqi = .fileMissing ∨ inp.aqi = .emptyData ∨ inp.aqi = .exn) →
        lookupVal "pm2_5" (sensor_cycle inp) = some (.num 0)) ∧
      ((inp.windSpeed = .errResp ∨ inp.windSpeed = .exn) →
        lookupVal "wind_speed" (sensor_cycle inp) = some (.num 0)) ∧
      ((inp.windDir = .errResp ∨ inp.windDir = .exn) →
        lookupVal "wind_dir_degrees" (sensor_cycle inp) = none ∧
        lookupVal "wind_dir_cardinal" (sensor_cycle inp) = none) ∧
      ((inp.rain = .errResp ∨ inp.rain = .exn) →
        lookupVal "rainfall" (sensor_cycle inp) = none) ∧
      (∀ (r : ℕ) (rest : List ℕ), inp.uv = .ok (r :: rest) →
        lookupVal "uv_index" (sensor_cycle inp) = some (.num ((r : ℚ) / 100))) := by
  intro inp
  refine ⟨?_, fun h => ⟨?_, ?_, ?_⟩, fun h => ?_, fun h => ?_, fun h => ?_,
    fun h => ⟨?_, ?_⟩, fun h => ?_, fun r rest h => ?_⟩
  · simp only [sensor_cycle]
    rw [lookupVal_mergeReading_skip _ _ _ (rainfall_keys_ne _ (by decide) inp.rain),
      lookupVal_mergeReading_skip _ _ _ (wind_dir_keys_ne _ (by decide) (by decide) inp.windDir),
      lookupVal_mergeReading_skip _ _ _ (wind_speed_keys_ne _ (by decide) inp.windSpeed),
      lookupVal_mergeReading_skip _ _ _
        (aqi_keys_ne _ (by decide) (by decide) (by decide) (by decide) (by decide) (by decide)
          (by decide) inp.aqi),
      lookupVal_mergeReading_skip _ _ _ (uv_keys_ne _ (by decide) inp.uv),
      lookupVal_mergeReading_skip _ _ _
        (env_keys_ne _ (by decide) (by decide) (by decide) inp.env)]
    rfl
  · simp only [sensor_cycle]
    rw [lookupVal_mergeReading_skip _ _ _ (rainfall_keys_ne _ (by decide) inp.rain),
      lookupVal_mergeReading_skip _ _ _ (wind_dir_keys_ne _ (by decide) (by decide) inp.windDir),
      lookupVal_mergeReading_skip _ _ _ (wind_speed_keys_ne _ (by decide) inp.windSpeed),
      lookupVal_mergeReading_skip _ _ _
        (aqi_keys_ne _ (by decide) (by decide) (by decide) (by decide) (by decide) (by decide)
          (by decide) inp.aqi),
      lookupVal_mergeReading_skip _ _ _ (uv_keys_ne _ (by decide) inp.uv)]
    rcases h with h | h <;> rw [h] <;> rfl
  · simp only [sensor_cycle]
    rw [lookupVal_mergeReading_skip _ _ _ (rainfall_keys_ne _ (by decide) inp.rain),
      lookupVal_mergeReading_skip _ _ _ (wind_dir_keys_ne _ (by decide) (by decide) inp.windDir),
      lookupVal_mergeReading_skip _ _ _ (wind_speed_keys_ne _ (by decide) inp.windSpeed),
      lookupVal_mergeReading_skip _ _ _
        (aqi_keys_ne _ (by decide) (by decide) (by decide) (by decide) (by decide) (by decide)
          (by decide) inp.aqi),
      lookupVal_mergeReading_skip _ _ _ (uv_keys_ne _ (by decide) inp.uv)]
    rcases h with h | h <;> rw [h] <;> rfl
  · simp only [sensor_cycle]
    rw [lookupVal_mergeReading_skip _ _ _ (rainfall_keys_ne _ (by decide) inp.rain),
      lookupVal_mergeReading_skip _ _ _ (wind_dir_keys_ne _ (by decide) (by decide) inp.windDir),
      lookupVal_mergeReading_skip _ _ _ (wind_speed_keys_ne _ (by decide) inp.windSpeed),
      lookupVal_mergeReading_skip _ _ _
        (aqi_keys_ne _ (by decide) (by decide) (by decide) (by decide) (by decide) (by decide)
          (by decide) inp.aqi),
      lookupVal_mergeReading_skip _ _ _ (uv_keys_ne _ (by decide) inp.uv)]
    rcases h with h | h <;> rw [h] <;> rfl
  · simp only [sensor_cycle]
    rw [lookupVal_mergeReading_skip _ _ _ (rainfall_keys_ne _ (by decide) inp.rain),
      lookupVal_mergeReading_skip _ _ _ (wind_dir_keys_ne _ (by decide) (by decide) inp.windDir),
      lookupVal_mergeReading_skip _ _ _ (wind_speed_keys_ne _ (by decide) inp.windSpeed),
      lookupVal_mergeReading_skip _ _ _
        (aqi_keys_ne _ (by decide) (by decide) (by decide) (by decide) (by decide) (by decide)
          (by decide) inp.aqi)]
    rcases h with h | h <;>
      (rw [h]
       simp only [read_uv_sensor, mergeReading]
       rw [lookupVal_dictUpdate_found _ _ _ (by rfl)]) <;> rfl
  · simp only [sensor_cycle]
    rw [lookupVal_mergeReading_skip _ _ _ (rainfall_keys_ne _ (by decide) inp.rain),
      lookupVal_mergeReading_skip _ _ _ (wind_dir_keys_ne _ (by decide) (by decide) inp.windDir),
      lookupVal_mergeReading_skip _ _ _ (wind_speed_keys_ne _ (by decide) inp.windSpeed)]
    rcases h with h | h | h <;>
      (rw [h]
       simp only [read_aqi_sensor, mergeReading]
       rw [lookupVal_dictUpdate_found _ _ _ (by rfl)]) <;> rfl
  · simp only [sensor_cycle]
    rw [lookupVal_mergeReading_skip _ _ _ (rainfall_keys_ne _ (by decide) inp.rain),
      lookupVal_mergeReading_skip _ _ _ (wind_dir_keys_ne _ (by decide) (by decide) inp.windDir)]
    rcases h with h | h <;>
      (rw [h]
       simp only [read_wind_speed, mergeReading]
       rw [lookupVal_dictUpdate_found _ _ _ (by rfl)]) <;> rfl
  · simp only [sensor_cycle]
    rw [lookupVal_mergeReading_skip _ _ _ (rainfall_keys_ne _ (by decide) inp.rain)]
    rcases h with h | h <;>
      (rw [lookupVal_mergeReading_none _ _ _ (by rw [h]; rfl)]
       rw [lookupVal_mergeReading_skip _ _ _ (wind_speed_keys_ne _ (by decide) inp.windSpeed),
         lookupVal_mergeReading_skip _ _ _
           (aqi_keys_ne _ (by decide) (by decide) (by decide) (by decide) (by decide) (by decide)
             (by decide) inp.aqi),
         lookupVal_mergeReading_skip _ _ _ (uv_keys_ne _ (by decide) inp.uv),
         lookupVal_mergeReading_skip _ _ _
           (env_keys_ne _ (by decide) (by decide) (by decide) inp.env)]) <;> rfl
  · simp only [sensor_cycle]
    rw [lookupVal_mergeReading_skip _ _ _ (rainfall_keys_ne _ (by decide) inp.rain)]
    rcases h with h | h <;>
      (rw [lookupVal_mergeReading_none _ _ _ (by rw [h]; rfl)]
       rw [lookupVal_mergeReading_skip _ _ _ (wind_speed_keys_ne _ (by decide) inp.windSpeed),
         lookupVal_mergeReading_skip _ _ _
           (aqi_keys_ne _ (by decide) (by decide) (by decide) (by decide) (by decide) (by decide)
             (by decide) inp.aqi),
         lookupVal_mergeReading_skip _ _ _ (uv_keys_ne _ (by decide) inp.uv),
         lookupVal_mergeReading_skip _ _ _
           (env_keys_ne _ (by decide) (by decide) (by decide) inp.env)]) <;> rfl
  · simp only [sensor_cycle]
    rcases h with h | h <;>
      (rw [lookupVal_mergeReading_none _ _ _ (by rw [h]; rfl)]
       rw [lookupVal_mergeReading_skip _ _ _ (wind_dir_keys_ne _ (by decide) (by decide) inp.windDir),
         lookupVal_mergeReading_skip _ _ _ (wind_speed_keys_ne _ (by decide) inp.windSpeed),
         lookupVal_mergeReading_skip _ _ _
           (aqi_keys_ne _ (by decide) (by decide) (by decide) (by decide) (by decide) (by decide)
             (by decide) inp.aqi),
         lookupVal_mergeReading_skip _ _ _ (uv_keys_ne _ (by decide) inp.uv),
         lookupVal_mergeReading_skip _ _ _
           (env_keys_ne _ (by decide) (by decide) (by decide) inp.env)]) <;> rfl
  · simp only [sensor_cycle]
    rw [lookupVal_mergeReading_skip _ _ _ (rainfall_keys_ne _ (by decide) inp.rain),
      lookupVal_mergeReading_skip _ _ _ (wind_dir_keys_ne _ (by decide) (by decide) inp.windDir),
      lookupVal_mergeReading_skip _ _ _ (wind_speed_keys_ne _ (by decide) inp.windSpeed),
      lookupVal_mergeReading_skip _ _ _
        (aqi_keys_ne _ (by decide) (by decide) (by decide) (by decide) (by decide) (by decide)
          (by decide) inp.aqi)]
    rw [h]
    simp only [read_uv_sensor, mergeReading]
    rw [lookupVal_dictUpdate_found _ _ _ (by rfl)]
    rfl

/-- Witness for C5: a cycle in which every sensor fails (error responses and
exceptions mixed) still produces a snapshot with the defined defaults and
omissions. -/
theorem sensor_failure_defaults_witness :
    lookupVal "temperature"
        (sensor_cycle ⟨"T", .errResp, .exn, .fileMissing, .errResp, .exn, .errResp⟩) =
      some (.num 0) ∧
    lookupVal "uv_index"
        (sensor_cycle ⟨"T", .errResp, .exn, .fileMissing, .errResp, .exn, .errResp⟩) =
      some (.num 0) ∧
    lookupVal "pm2_5"
        (sensor_cycle ⟨"T", .errResp, .exn, .fileMissing, .errResp, .exn, .errResp⟩) =
      some (.num 0) ∧
    lookupVal "wind_speed"
        (sensor_cycle ⟨"T", .errResp, .exn, .fileMissing, .errResp, .exn, .errResp⟩) =
      some (.num 0) ∧
    lookupVal "wind_dir_degrees"
        (sensor_cycle ⟨"T", .errResp, .exn, .fileMissing, .errResp, .exn, .errResp⟩) = none ∧
    lookupVal "rainfall"
        (sensor_cycle ⟨"T", .errResp, .exn, .fileMissing, .errResp, .exn, .errResp⟩) = none :=
  ⟨((sensor_failure_defaults _).2.1 (Or.inl rfl)).1,
   (sensor_failure_defaults _).2.2.1 (Or.inr rfl),
   (sensor_failure_defaults _).2.2.2.1 (Or.inl rfl),
   (sensor_failure_defaults _).2.2.2.2.1 (Or.inl rfl),
   ((sensor_failure_defaults _).2.2.2.2.2.1 (Or.inr rfl)).1,
   (sensor_failure_defaults _).2.2.2.2.2.2.1 (Or.inl rfl)⟩

/-- Appending a record to file `n` extends exactly that file's records. -/
theorem lookupFile_appendRowTo_same (n : String) (r : CsvRow) :
    ∀ fs : FileSys, lookupFile n (appendRowTo n r fs) =
      (lookupFile n fs).map (fun rows => rows ++ [r]) := by
  intro fs
  induction fs with
  | nil => rfl
  | cons e rest ih =>
    by_cases he : (e.1 == n) = true
    · simp only [appendRowTo, List.map_cons, lookupFile] at ih ⊢
      rw [if_pos he]
      simp [List.find?_cons, he]
    · simp only [appendRowTo, List.map_cons, lookupFile] at ih ⊢
      rw [if_neg he]
      simp only [List.find?_cons, he]
      exact ih

/-- Appending a record to file `n` leaves every other file unchanged. -/
theorem lookupFile_appendRowTo_other (g n : String) (hg : g ≠ n) (r : CsvRow) :
    ∀ fs : FileSys, lookupFile g (appendRowTo n r fs) = lookupFile g fs := by
  intro fs
  induction fs with
  | nil => rfl
  | cons e rest ih =>
    by_cases he : (e.1 == n) = true
    · have he1 : e.1 = n := by simpa using he
      have hne : (e.1 == g) = false := by simp [he1, Ne.symm hg]
      simp only [appendRowTo, List.map_cons, lookupFile] at ih ⊢
      rw [if_pos he]
      simp only [List.find?_cons, hne]
      exact ih
    · simp only [appendRowTo, List.map_cons, lookupFile] at ih ⊢
      rw [if_neg he]
      by_cases hgg : (e.1 == g) = true
      · simp [List.find?_cons, hgg]
      · have hgf : (e.1 == g) = false := by simpa using hgg
        simp only [List.find?_cons, hgf]
        exact ih

/-- Creating a previously absent file makes its records visible. -/
theorem lookupFile_append_new (n : String) (rows : List CsvRow) (fs : FileSys)
    (h : lookupFile n fs = none) :
    lookupFile n (fs ++ [(n, rows)]) = some rows := by
  unfold lookupFile at h ⊢
  rw [List.find?_append, Option.map_eq_none'.mp h, Option.none_or,
    List.find?_cons_of_pos _ (by simp)]
  rfl

/-- Creating a file does not change the lookup of any other file. -/
theorem lookupFile_append_other (g n : String) (hg : g ≠ n) (rows : List CsvRow)
    (fs : FileSys) :
    lookupFile g (fs ++ [(n, rows)]) = lookupFile g fs := by
  unfold lookupFile
  rw [List.find?_append, List.find?_cons_of_neg _ (by simp [Ne.symm hg])]
  simp [Option.or_none]

/-- C8: for each dequeued snapshot the persistence writer computes today's
file identity; if the file is absent it creates it with the fixed header and
triggers the retention sweep (the flag), and it appends exactly one record
whose cells are the present-or-empty values of the 16 header columns, in
exactly the header's order; every other file is untouched. -/
theorem csv_writer_row_format :
    ∀ (fs : FileSys) (today : String) (d : Snapshot) (ts : Val),
      lookupVal "timestamp" d = some ts →
      headerNames.length = 16 ∧
      csvRowOf d = some (headerNames.map (fun k => lookupVal k d)) ∧
      (csv_write_snapshot fs today d).2 =
        (lookupFile ("weather_data_" ++ today ++ ".csv") fs).isNone ∧
      lookupFile ("weather_data_" ++ today ++ ".csv") (csv_write_snapshot fs today d).1 =
        some ((match lookupFile ("weather_data_" ++ today ++ ".csv") fs with
                | none => [headerRow]
                | some rows => rows) ++ [headerNames.map (fun k => lookupVal k d)]) ∧
      (∀ g, g ≠ "weather_data_" ++ today ++ ".csv" →
        lookupFile g (csv_write_snapshot fs today d).1 = lookupFile g fs) := by
  intro fs today d ts hts
  have hrow : csvRowOf d = some (headerNames.map (fun k => lookupVal k d)) := by
    simp only [csvRowOf, hts, headerNames, List.map_cons, List.map_nil]
  refine ⟨rfl, hrow, ?_, ?_, ?_⟩
  · cases hf : lookupFile ("weather_data_" ++ today ++ ".csv") fs with
    | none => simp [csv_write_snapshot, hf, hrow]
    | some rows => simp [csv_write_snapshot, hf, hrow]
  · cases hf : lookupFile ("weather_data_" ++ today ++ ".csv") fs with
    | none =>
      simp only [csv_write_snapshot, hf, hrow]
      rw [lookupFile_appendRowTo_same,
        lookupFile_append_new _ _ _ hf]
      rfl
    | some rows =>
      simp only [csv_write_snapshot, hf, hrow]
      rw [lookupFile_appendRowTo_same, hf]
      rfl
  · intro g hg
    cases hf : lookupFile ("weather_data_" ++ today ++ ".csv") fs with
    | none =>
      simp only [csv_write_snapshot, hf, hrow]
      rw [lookupFile_appendRowTo_other g _ hg, lookupFile_append_other g _ hg]
    | some rows =>
      simp only [csv_write_snapshot, hf, hrow]
      rw [lookupFile_appendRowTo_other g _ hg]

/-- Witness for C8: writing a minimal snapshot into an empty directory
produces the header-ordered record and triggers the sweep. -/
theorem csv_writer_row_format_witness :
    headerNames.length = 16 ∧
    csvRowOf [("timestamp", Val.str "t")] =
      some (headerNames.map (fun k => lookupVal k [("timestamp", Val.str "t")])) ∧
    (csv_write_snapshot [] "2026-10-12" [("timestamp", Val.str "t")]).2 = true :=
  ⟨(csv_writer_row_format [] "2026-10-12" [("timestamp", .str "t")] (.str "t") rfl).1,
   (csv_writer_row_format [] "2026-10-12" [("timestamp", .str "t")] (.str "t") rfl).2.1,
   ((csv_writer_row_format [] "2026-10-12" [("timestamp", .str "t")] (.str "t") rfl).2.2.1).trans
     rfl⟩

/-- C9 counterexample: the sweep strips *every* occurrence of the prefix and
the extension (Python `str.replace`), so the file named
`weather_data_2020-01weather_data_-01.csv` — which does not match the
`<prefix>_<YYYY-MM-DD>.<ext>` pattern (its middle is not a date) — still
parses as 2020-01-01 after stripping and is deleted on 2026-10-12, although
the claim says only pattern-matching files are deleted. -/
theorem retention_sweep_counterexample :
    cleanupFiles csvPre csvSuf (2026, 10, 12)
        ["weather_data_2020-01weather_data_-01.csv".toList] = [] ∧
    specPatternExpired csvPre csvSuf (2026, 10, 12)
        "weather_data_2020-01weather_data_-01.csv".toList = false := by
  constructor
  · decide
  · decide

/-- C9 amended: the sweep deletes exactly those files whose name starts with
the prefix, ends with the extension, and whose name with every occurrence of
the prefix and the extension removed parses as a calendar date more than 7
days old (for canonical `<prefix>_<YYYY-MM-DD>.<ext>` names this is the
spec's pattern); files whose stripped name does not parse are skipped, never
deleted; and a sweep over a directory with no such expired file is a no-op. -/
theorem retention_sweep_amended :
    ∀ (pre suf : FName) (today : ℕ × ℕ × ℕ) (dir : List FName),
      cleanupFiles pre suf today dir =
        dir.filter (fun f => !(fileExpired pre suf today f)) ∧
      ((∀ f ∈ dir, fileExpired pre suf today f = false) →
        cleanupFiles pre suf today dir = dir) ∧
      (∀ f ∈ dir, parseYMD (stripAll suf (stripAll pre f)) = none →
        f ∈ cleanupFiles pre suf today dir) := by
  intro pre suf today dir
  have h1 : cleanupFiles pre suf today dir =
      dir.filter (fun f => !(fileExpired pre suf today f)) := by
    induction dir with
    | nil => rfl
    | cons f rest ih =>
      by_cases hf : fileExpired pre suf today f = true
      · simp [cleanupFiles, List.filter_cons, hf, ih]
      · simp [cleanupFiles, List.filter_cons, hf, ih]
  refine ⟨h1, ?_, ?_⟩
  · intro h
    rw [h1]
    apply List.filter_eq_self.mpr
    intro f hf
    simp [h f hf]
  · intro f hf hp
    rw [h1]
    apply List.mem_filter.mpr
    refine ⟨hf, ?_⟩
    have hff : fileExpired pre suf today f = false := by
      unfold fileExpired
      rw [hp]
      simp
    simp [hff]

/-- Witness for C9: a two-day-old canonical file survives the sweep
(idempotence hypothesis discharged), and a malformed name is kept. -/
theorem retention_sweep_witness :
    cleanupFiles csvPre csvSuf (2026, 10, 12) ["weather_data_2026-10-10.csv".toList] =
      ["weather_data_2026-10-10.csv".toList] ∧
    "weather_data_notadate.csv".toList ∈
      cleanupFiles csvPre csvSuf (2026, 10, 12) ["weather_data_notadate.csv".toList] :=
  ⟨(retention_sweep_amended csvPre csvSuf (2026, 10, 12) _).2.1 (by decide),
   (retention_sweep_amended csvPre csvSuf (2026, 10, 12) _).2.2 _ (by decide) (by decide)⟩
